import Mathlib

/-!
Shallow embedding of `comp_slab_models_image.py`, the TRUST BM1 slab
benchmark image-comparison plotting script.

Pure data flow is modelled directly.  The matplotlib side effects are
modelled by the data the script hands to them (panel grid positions, panel
titles, the shared color range, the output file names); file existence by a
`String → Bool` oracle; FITS image loading by a `String → Img` oracle; the
uninitialized contents of `np.empty((n_files, 2))` by an explicit `garbage`
parameter; and `exit(0)` by an `Except` error value carrying the printed
diagnostic and the exit code.  Floating point values are modelled as exact
rationals.
-/

namespace TrustSlab

/-- A 2-D image, as produced by `np.squeeze(fits.getdata(cfile))`:
`rows` is `shape[0]`, `cols` is `shape[1]`, `pix i j` the pixel at row `i`,
column `j`.  The model takes the loaded arrays to be genuinely 2-D (both
dimensions at least 2): an array with a singleton dimension would not keep
its shape under the squeeze, and the script would fail at `timage.shape[1]`
before any of the behavior modelled here. -/
structure Img where
  rows : Nat
  cols : Nat
  pix : Nat → Nat → ℚ

/-- `np.rot90(timage, 3)`: three counterclockwise quarter-turns, i.e. one
clockwise quarter-turn.  Entry `(i, j)` of the result is entry
`(rows - 1 - j, i)` of the input; the shape is transposed. -/
def rot90_3 (img : Img) : Img :=
  ⟨img.cols, img.rows, fun i j => img.pix (img.rows - 1 - j) i⟩

/-- numpy basic slicing `timage[r0:r1, c0:c1]` (out-of-range stops clamp to
the array extent, as in numpy). -/
def crop (r0 r1 c0 c1 : Nat) (img : Img) : Img :=
  ⟨min r1 img.rows - r0, min c1 img.cols - c0, fun i j => img.pix (i + r0) (j + c0)⟩

/-- Line 66-67: `if displaynames[i] in ['CRT','SOC']: timage = np.rot90(timage,3)`. -/
def rotateIf (name : String) (img : Img) : Img :=
  if name = "CRT" ∨ name = "SOC" then rot90_3 img else img

/-- Lines 69-72: crop window selected by `timage.shape[0]` of the array the
step receives (i.e. after the conditional rotation); any other leading size
falls through both branches and the image is passed on unchanged. -/
def cropWindow (img : Img) : Img :=
  if img.rows = 300 then crop 9 260 45 255 img
  else if img.rows = 600 then crop 19 520 90 510 img
  else img

/-- The per-image preprocessing of lines 64-72 after the squeeze:
conditional rotation, then the fixed-window crop. -/
def preprocess (name : String) (img : Img) : Img :=
  cropWindow (rotateIf name img)

/-- Follows the spec's words (§4.3/C3), for comparison with `preprocess`:
the crop window selected by the leading dimension size of the array as it
was *before* the conditional rotation and before cropping. -/
def specPreprocess (name : String) (img : Img) : Img :=
  if img.rows = 300 then crop 9 260 45 255 (rotateIf name img)
  else if img.rows = 600 then crop 19 520 90 510 (rotateIf name img)
  else rotateIf name img

/-- All pixels of an image, row-major (the order is irrelevant to the
min/max statistics taken over them). -/
def pixList (img : Img) : List ℚ :=
  ((List.range img.rows).map (fun i => (List.range img.cols).map fun j => img.pix i j)).flatten

/-- `np.max` over a flattened nonempty pixel list (`0` as junk value for the
empty list, on which numpy would raise). -/
def listMax : List ℚ → ℚ
  | [] => 0
  | x :: t => t.foldl max x

/-- `np.min` over a flattened nonempty pixel list (`0` as junk value for the
empty list). -/
def listMin : List ℚ → ℚ
  | [] => 0
  | x :: t => t.foldl min x

/-- Line 81: the pixels selected by
`np.where((timage[:] > 0.) & (timage[:] < np.max(timage[:])))`. -/
def validPixels (l : List ℚ) : List ℚ :=
  l.filter fun p => decide (0 < p) && decide (p < listMax l)

/-- Lines 81-86: the per-image (min, max) statistics; `none` when no pixel
qualifies (the row of `minmax_vals` is then never written and the script
prints ` has no positive values`). -/
def minmaxOf (l : List ℚ) : Option (ℚ × ℚ) :=
  if validPixels l = [] then none
  else some (listMin (validPixels l), listMax (validPixels l))

/-- Insertion into an ascending list, for `median`. -/
def insertAsc (x : ℚ) : List ℚ → List ℚ
  | [] => [x]
  | y :: t => if x ≤ y then x :: y :: t else y :: insertAsc x t

/-- Ascending insertion sort, for `median`. -/
def sortAsc : List ℚ → List ℚ
  | [] => []
  | x :: t => insertAsc x (sortAsc t)

/-- `np.median`: middle element of the sorted list for odd length, mean of
the two middle elements for even length (`0` as junk for the empty list, on
which numpy would produce NaN). -/
def median (l : List ℚ) : ℚ :=
  if l.length = 0 then 0
  else if l.length % 2 = 1 then (sortAsc l).getD (l.length / 2) 0
  else ((sortAsc l).getD (l.length / 2 - 1) 0 + (sortAsc l).getD (l.length / 2) 0) / 2

/-- Line 77 + lines 81-86: the rows of `minmax_vals`.  The array is created
with `np.empty((n_files, 2))`, so a row whose image has no qualifying pixel
keeps its uninitialized contents, modelled by the `garbage` list. -/
def minmaxVals (ls : List (List ℚ)) (garbage : List (ℚ × ℚ)) : List (ℚ × ℚ) :=
  List.zipWith (fun l g => (minmaxOf l).getD g) ls garbage

/-- Lines 88-90: `gindxs, = np.where(minmax_vals[:,0] > 0)` then the pair of
medians of the selected rows' columns. -/
def plot_minmax (ls : List (List ℚ)) (garbage : List (ℚ × ℚ)) : ℚ × ℚ :=
  (median (((minmaxVals ls garbage).filter fun p => decide (0 < p.1)).map Prod.fst),
   median (((minmaxVals ls garbage).filter fun p => decide (0 < p.1)).map Prod.snd))

/-- Follows the spec's words (§4.4/C2), for comparison with `plot_minmax`:
the shared display range as the median of all *valid* per-image minimums and
the median of all valid per-image maximums, an image with no qualifying
pixel contributing no entry at all. -/
def specSharedRange (ls : List (List ℚ)) : ℚ × ℚ :=
  (median ((ls.filterMap minmaxOf).map Prod.fst),
   median ((ls.filterMap minmaxOf).map Prod.snd))

/-- Lines 24-25: `modname + '_t' + tau + '_i' + angle + 'a000_w' + wave + '.fits'`. -/
def ifilenames (modnames : List String) (wave tau angle : String) : List String :=
  modnames.map fun m => m ++ "_t" ++ tau ++ "_i" ++ angle ++ "a000_w" ++ wave ++ ".fits"

/-- Lines 29-37: the existence-filter loop over `enumerate(ifilenames)`,
appending to the three parallel lists `filenames`, `displaynames`,
`fileindxs`; `i` is the running original index. -/
def filterFiles (onDisk : String → Bool) :
    List (String × String) → Nat → List String × List String × List Nat
  | [], _ => ([], [], [])
  | (f, d) :: rest, i =>
    let r := filterFiles onDisk rest (i + 1)
    if onDisk f then (f :: r.1, d :: r.2.1, i :: r.2.2) else r

/-- The `(filenames, displaynames, fileindxs)` triple produced by the
existence filter for one render request. -/
def keptTriple (onDisk : String → Bool) (modnames labels : List String)
    (wave tau angle : String) : List String × List String × List Nat :=
  filterFiles onDisk ((ifilenames modnames wave tau angle).zip labels) 0

/-- Lines 61-72: the surviving files, loaded through the `disk` oracle and
preprocessed with the display name that survived in lockstep. -/
def loadedImages (onDisk : String → Bool) (disk : String → Img)
    (modnames labels : List String) (wave tau angle : String) : List Img :=
  ((keptTriple onDisk modnames labels wave tau angle).1.zip
      (keptTriple onDisk modnames labels wave tau angle).2.1).map
    fun p => preprocess p.2 (disk p.1)

/-- The diagnostic and exit code of the `exit(0)` at lines 39-42. -/
structure ExitInfo where
  msg : String
  printedFilenames : List String
  exitCode : Nat
deriving DecidableEq

/-- What the output stage does: write a list of files, or show the figure
interactively. -/
inductive OutAction where
  | writes : List String → OutAction
  | interactive : OutAction
deriving DecidableEq

instance {ε α : Type} [DecidableEq ε] [DecidableEq α] : DecidableEq (Except ε α) := fun x y =>
  match x, y with
  | .error a, .error b =>
    if h : a = b then .isTrue (by rw [h]) else .isFalse (by intro hc; cases hc; exact h rfl)
  | .error _, .ok _ => .isFalse (by intro hc; cases hc)
  | .ok _, .error _ => .isFalse (by intro hc; cases hc)
  | .ok a, .ok b =>
    if h : a = b then .isTrue (by rw [h]) else .isFalse (by intro hc; cases hc; exact h rfl)

/-- Lines 110-118: `save_name` construction and the `if save_png / elif
save_eps / else show` dispatch. -/
def outputSink (save_eps save_png : Bool) (wave tau angle : String) : OutAction :=
  let save_name := "slab_t" ++ tau ++ "_i" ++ angle ++ "_w" ++ wave ++ "_image_comp"
  if save_png then .writes [save_name ++ ".png", save_name ++ "_small.png"]
  else if save_eps then .writes [save_name ++ ".eps"]
  else .interactive

/-- Line 45: the overall figure caption. -/
def figLabelOf (wave tau angle : String) : String :=
  "Slab, $\\tau (1 \\mu m)$ = " ++ tau ++ ", $\\theta$ = " ++ angle ++
    ", $\\lambda$ = " ++ wave

/-- numpy assignment `dst_slice[...] = src` for 2-D arrays: `src`'s shape
must broadcast into the slice's shape (each dimension equal, or 1 on the
source side); otherwise the assignment raises `ValueError`. -/
def broadcastsInto (src dst : Img) : Bool :=
  (src.rows == dst.rows || src.rows == 1) && (src.cols == dst.cols || src.cols == 1)

/-- Lines 74-78: `all_images = np.empty((timage.shape[0], timage.shape[1],
n_files))` is sized from the *first* processed image, and every processed
image is then assigned into its `all_images[:,:,i]` slice.  The assembly
succeeds exactly when every image broadcasts into the first one's shape;
otherwise the loop dies with an uncaught `ValueError` at line 78, before
the statistics aggregation at line 90. -/
def cubeOk : List Img → Bool
  | [] => true
  | h :: t => (h :: t).all fun im => broadcastsInto im h

/-- The observable content of one produced figure.  `positions` and
`titles` are fixed by lines 56-58 before any image is loaded;
`plotRange = none` records that the cube assembly of lines 74-78 raised
`ValueError`, so the script aborts there and never reaches the shared-range
aggregation at line 90 (nor the stages after it, including the output
dispatch that `outputs` describes). -/
structure RenderResult where
  positions : List (Nat × Nat)
  titles : List String
  images : List Img
  plotRange : Option (ℚ × ℚ)
  outputs : OutAction
  figLabel : String

/-- Lines 20-120, `plot_imagegrid`: the whole per-combination render.
`positions` are the `gs[divmod(fileindxs[i], 3)]` grid cells as (row,
column) pairs — `divmod(n, 3) = (n / 3, n % 3)` and `GridSpec`
subscripting is `gs[row, column]`.  Zero surviving files is the `exit(0)`
branch, modelled as the `Except` error. -/
def plot_imagegrid (onDisk : String → Bool) (disk : String → Img)
    (garbage : List (ℚ × ℚ)) (modnames labels : List String)
    (wave tau angle : String) (save_eps save_png : Bool) :
    Except ExitInfo RenderResult :=
  if (keptTriple onDisk modnames labels wave tau angle).1.length = 0 then
    .error ⟨"no files present", ifilenames modnames wave tau angle, 0⟩
  else
    .ok { positions := (keptTriple onDisk modnames labels wave tau angle).2.2.map
            fun n => (n / 3, n % 3),
          titles := (keptTriple onDisk modnames labels wave tau angle).2.1,
          images := loadedImages onDisk disk modnames labels wave tau angle,
          plotRange :=
            if cubeOk (loadedImages onDisk disk modnames labels wave tau angle) then
              some (plot_minmax
                ((loadedImages onDisk disk modnames labels wave tau angle).map pixList) garbage)
            else none,
          outputs := outputSink save_eps save_png wave tau angle,
          figLabel := figLabelOf wave tau angle }

/-- Lines 222-226: the nested sweep loop.  Combinations are processed in
order; the first one whose `plot_imagegrid` hits the `exit(0)` branch stops
the whole program, and its exit information is returned alongside the
figures completed before it. -/
def sweepCombos (onDisk : String → Bool) (disk : String → Img)
    (garbage : List (ℚ × ℚ)) (modnames labels : List String)
    (save_eps save_png : Bool) :
    List (String × String × String) → List RenderResult × Option ExitInfo
  | [] => ([], none)
  | (wave, tau, angle) :: rest =>
    match plot_imagegrid onDisk disk garbage modnames labels wave tau angle save_eps save_png with
    | .error e => ([], some e)
    | .ok r =>
      let p := sweepCombos onDisk disk garbage modnames labels save_eps save_png rest
      (r :: p.1, p.2)

/-- Line 124. -/
def good_angles : List String := ["000", "030", "060", "090", "120", "150", "180", "all"]

/-- Line 125. -/
def good_taus : List String := ["1e-2", "1e-1", "1e0", "1e1", "all"]

/-- Line 126. -/
def good_waves : List String := ["000.15", "000.53", "035.11", "151.99", "all"]

/-- Lines 156-167: `xs = [args.x]; if 'all' in xs: xs = good_xs[0:len(good_xs)-1]`. -/
def expandAxis (good : List String) (choice : String) : List String :=
  if "all" ∈ [choice] then good.take (good.length - 1) else [choice]

/-- The seven special-run boolean flags of the command line. -/
structure Flags where
  stau : Bool
  nphot : Bool
  mscat : Bool
  econs : Bool
  nz : Bool
  wr : Bool
  minfs : Bool

/-- One branch of the lines 170-220 if/elif chain. -/
structure ModelConfig where
  displaynames : List String
  modnames : List String
  imodnames : List String
  scomp : Int
deriving DecidableEq

/-- Builds a special-run config whose `imodnames` are
`dir + '/' + modname + '_slab_eff'`. -/
def mkDirConfig (dir : String) (displaynames modnames : List String) : ModelConfig :=
  { displaynames := displaynames,
    modnames := modnames,
    imodnames := modnames.map fun m => dir ++ "/" ++ m ++ "_slab_eff",
    scomp := 0 }

/-- Lines 170-178 (the active, uncommented display names). -/
def stauConfig : ModelConfig :=
  mkDirConfig "dirty_stau"
    ["DIRTY (Nz=400)", "DIRTY (Nz=200)", "DIRTY (Nz=100)", "DIRTY (Nz=50)",
     "DIRTY (Nz=10)", "DIRTY (Nz=6)", "DIRTY (Nz=3)"]
    ["dirty_stau_0.00250", "dirty_stau_0.00500", "dirty_stau_0.01000",
     "dirty_stau_0.05000", "dirty_stau_0.10000", "dirty_stau_0.25000",
     "dirty_stau_1.00000"]

/-- Lines 179-183. -/
def nphotConfig : ModelConfig :=
  mkDirConfig "dirty_nphot"
    ["DIRTY (N=3.2e7)", "DIRTY (N=1e7)", "DIRTY (N=3.2e6)", "DIRTY (N=1e6)",
     "DIRTY (N=3.2e5)"]
    ["dirty_nphot_3.2e7", "dirty_nphot_1e7", "dirty_nphot_3.2e6",
     "dirty_nphot_1e6", "dirty_nphot_3.2e5"]

/-- Lines 184-188. -/
def mscatConfig : ModelConfig :=
  mkDirConfig "dirty_mscat"
    ["DIRTY (mscat=5)", "DIRTY (mscat=1)"]
    ["dirty_mscat_5", "dirty_mscat_1"]

/-- Lines 189-195. -/
def econsConfig : ModelConfig :=
  mkDirConfig "dirty_econs"
    ["DIRTY (econs=0.001)", "DIRTY (econs=0.0032)", "DIRTY (econs=0.01)",
     "DIRTY (econs=0.032)", "DIRTY (econs=0.1)", "DIRTY (econs=0.32)",
     "DIRTY (econs=1.0)"]
    ["dirty_econs_0.001", "dirty_econs_0.0032", "dirty_econs_0.01",
     "dirty_econs_0.032", "dirty_econs_0.1", "dirty_econs_0.32",
     "dirty_econs_1.0"]

/-- Lines 196-200. -/
def nzConfig : ModelConfig :=
  mkDirConfig "skirtnz"
    ["SKIRT (Nz=400)", "SKIRT (Nz=200)", "SKIRT (Nz=100)", "SKIRT (Nz=30)",
     "SKIRT (Nz=10)", "SKIRT (Nz=5)"]
    ["skirtnz400", "skirtnz200", "skirtnz100", "skirtnz030", "skirtnz010",
     "skirtnz005"]

/-- Lines 201-205. -/
def wrConfig : ModelConfig :=
  mkDirConfig "skirtwr"
    ["SKIRT (wr=1e8)", "SKIRT (wr=1e7)", "SKIRT (wr=1e6)", "SKIRT (wr=1e5)",
     "SKIRT (wr=1e4)", "SKIRT (wr=1e3)"]
    ["skirtwr1e8", "skirtwr1e7", "skirtwr1e6", "skirtwr1e5", "skirtwr1e4",
     "skirtwr1e3"]

/-- Lines 206-212. -/
def minfsConfig : ModelConfig :=
  mkDirConfig "skirtminfs"
    ["SKIRT (minfs=1)", "SKIRT (minfs=3)", "SKIRT (minfs=10)", "SKIRT (minfs=30)",
     "SKIRT (minfs=100)", "SKIRT (minfs=200)", "SKIRT (minfs=400)"]
    ["skirtminfs001wr1e7", "skirtminfs003wr1e7", "skirtminfs010wr1e7",
     "skirtminfs030wr1e7", "skirtminfs100wr1e7", "skirtminfs200wr1e7",
     "skirtminfs400wr1e7"]

/-- Lines 213-220: the default 7-code comparison set, with
`imodnames = modname + '/' + modname + '_slab_eff'` and `scomp = -1`. -/
def defaultConfig : ModelConfig :=
  { displaynames := ["CRT", "DART-ray", "DIRTY", "Hyperion", "SKIRT", "SOC", "TRADING"],
    modnames := ["crt", "dartr", "dirty", "hyper", "skirt", "SOC", "tradi"],
    imodnames := ["crt", "dartr", "dirty", "hyper", "skirt", "SOC", "tradi"].map
      fun m => m ++ "/" ++ m ++ "_slab_eff",
    scomp := -1 }

/-- Lines 170-220: the if/elif chain over the mode flags. -/
def selectConfig (f : Flags) : ModelConfig :=
  if f.stau then stauConfig
  else if f.nphot then nphotConfig
  else if f.mscat then mscatConfig
  else if f.econs then econsConfig
  else if f.nz then nzConfig
  else if f.wr then wrConfig
  else if f.minfs then minfsConfig
  else defaultConfig

/-! Concrete instances used by the witnesses and counterexamples. -/

/-- A 2×2 all-ones image (genuinely 2-D, stable under the squeeze). -/
def unitImg : Img := ⟨2, 2, fun _ _ => 1⟩

/-- A disk on which every file resolves to `unitImg`. -/
def unitDisk : String → Img := fun _ => unitImg

/-- An existence oracle on which every file exists. -/
def allOnDisk : String → Bool := fun _ => true

/-- An existence oracle on which no file exists. -/
def noneOnDisk : String → Bool := fun _ => false

/-- Only the file built from model `mb` exists. -/
def mbOnDisk : String → Bool := fun s => s == "mb_tt_iaa000_ww.fits"

/-- Exactly the default-set files of CRT, SKIRT and TRADING (original
indices 0, 4 and 6) exist, for tau `1e0`, angle `090`, wave `000.53`. -/
def threeOfSevenOnDisk : String → Bool := fun s =>
  s == "crt/crt_slab_eff_t1e0_i090a000_w000.53.fits" ||
  s == "skirt/skirt_slab_eff_t1e0_i090a000_w000.53.fits" ||
  s == "tradi/tradi_slab_eff_t1e0_i090a000_w000.53.fits"

/-- A 2×3 image whose rows are both (1, 2, 3): its qualifying pixels are
the 1s and 2s, its maximum 3. -/
def rampImg : Img := ⟨2, 3, fun _ j => if j = 0 then 1 else if j = 1 then 2 else 3⟩

/-- A 2×3 constant image: no pixel is strictly below its own maximum, so it
has no qualifying pixel.  Same shape as `rampImg`, so the cube assembly of
lines 74-78 succeeds. -/
def flatImg : Img := ⟨2, 3, fun _ _ => 5⟩

/-- The file of model `ma` holds `rampImg`, every other file `flatImg`. -/
def rampFlatDisk : String → Img := fun f =>
  if f == "ma_tt_iaa000_ww.fits" then rampImg else flatImg

/-- A second 2×3 constant image with no qualifying pixel. -/
def flat6Img : Img := ⟨2, 3, fun _ _ => 6⟩

/-- `ma` holds `rampImg`, `mb` holds `flatImg`, every other file `flat6Img`. -/
def rampFlatDisk3 : String → Img := fun f =>
  if f == "ma_tt_iaa000_ww.fits" then rampImg
  else if f == "mb_tt_iaa000_ww.fits" then flatImg
  else flat6Img

/-- A 200×300 image: leading dimension 200 before rotation, 300 after. -/
def wideImg : Img := ⟨200, 300, fun _ _ => 0⟩

/-- A square 300×300 image. -/
def sqImg : Img := ⟨300, 300, fun _ _ => 1⟩

/-- A small image whose leading dimension is neither 300 nor 600. -/
def smallImg : Img := ⟨10, 20, fun _ _ => 1⟩

/-! Helper lemmas about folded maxima and minima. -/

lemma foldl_max_eq_or_mem : ∀ (t : List ℚ) (x : ℚ), t.foldl max x = x ∨ t.foldl max x ∈ t := by
  intro t
  induction t with
  | nil => intro x; exact .inl rfl
  | cons y s ih =>
    intro x
    rw [List.foldl_cons]
    rcases ih (max x y) with h | h
    · rw [h]
      rcases max_choice x y with hxy | hxy
      · exact .inl hxy
      · exact .inr (by rw [hxy]; exact List.mem_cons_self y s)
    · exact .inr (List.mem_cons_of_mem y h)

lemma le_foldl_max : ∀ (t : List ℚ) (x : ℚ), x ≤ t.foldl max x := by
  intro t
  induction t with
  | nil => intro x; exact le_refl x
  | cons y s ih =>
    intro x
    rw [List.foldl_cons]
    exact le_trans (le_max_left x y) (ih (max x y))

lemma mem_le_foldl_max : ∀ (t : List ℚ) (x y : ℚ), y ∈ t → y ≤ t.foldl max x := by
  intro t
  induction t with
  | nil => intro x y h; cases h
  | cons z s ih =>
    intro x y h
    rw [List.foldl_cons]
    rcases List.mem_cons.mp h with rfl | h
    · exact le_trans (le_max_right x y) (le_foldl_max s (max x y))
    · exact ih (max x z) y h

lemma foldl_min_eq_or_mem : ∀ (t : List ℚ) (x : ℚ), t.foldl min x = x ∨ t.foldl min x ∈ t := by
  intro t
  induction t with
  | nil => intro x; exact .inl rfl
  | cons y s ih =>
    intro x
    rw [List.foldl_cons]
    rcases ih (min x y) with h | h
    · rw [h]
      rcases min_choice x y with hxy | hxy
      · exact .inl hxy
      · exact .inr (by rw [hxy]; exact List.mem_cons_self y s)
    · exact .inr (List.mem_cons_of_mem y h)

lemma foldl_min_le : ∀ (t : List ℚ) (x : ℚ), t.foldl min x ≤ x := by
  intro t
  induction t with
  | nil => intro x; exact le_refl x
  | cons y s ih =>
    intro x
    rw [List.foldl_cons]
    exact le_trans (ih (min x y)) (min_le_left x y)

lemma foldl_min_le_mem : ∀ (t : List ℚ) (x y : ℚ), y ∈ t → t.foldl min x ≤ y := by
  intro t
  induction t with
  | nil => intro x y h; cases h
  | cons z s ih =>
    intro x y h
    rw [List.foldl_cons]
    rcases List.mem_cons.mp h with rfl | h
    · exact le_trans (foldl_min_le s (min x y)) (min_le_right x y)
    · exact ih (min x z) y h

lemma listMax_mem : ∀ (l : List ℚ), l ≠ [] → listMax l ∈ l := by
  intro l h
  match l with
  | [] => exact absurd rfl h
  | x :: t =>
    simp only [listMax]
    rcases foldl_max_eq_or_mem t x with h1 | h1
    · rw [h1]; exact List.mem_cons_self x t
    · exact List.mem_cons_of_mem x h1

lemma le_listMax : ∀ (l : List ℚ) (y : ℚ), y ∈ l → y ≤ listMax l := by
  intro l y h
  match l with
  | [] => cases h
  | x :: t =>
    simp only [listMax]
    rcases List.mem_cons.mp h with rfl | hm
    · exact le_foldl_max t y
    · exact mem_le_foldl_max t x y hm

lemma listMin_mem : ∀ (l : List ℚ), l ≠ [] → listMin l ∈ l := by
  intro l h
  match l with
  | [] => exact absurd rfl h
  | x :: t =>
    simp only [listMin]
    rcases foldl_min_eq_or_mem t x with h1 | h1
    · rw [h1]; exact List.mem_cons_self x t
    · exact List.mem_cons_of_mem x h1

lemma listMin_le : ∀ (l : List ℚ) (y : ℚ), y ∈ l → listMin l ≤ y := by
  intro l y h
  match l with
  | [] => cases h
  | x :: t =>
    simp only [listMin]
    rcases List.mem_cons.mp h with rfl | hm
    · exact foldl_min_le t y
    · exact foldl_min_le_mem t x y hm

/-! Helper lemmas about the per-image statistics. -/

lemma validPixels_mem {l : List ℚ} {p : ℚ} :
    p ∈ validPixels l ↔ p ∈ l ∧ 0 < p ∧ p < listMax l := by
  simp [validPixels, List.mem_filter, and_assoc]

lemma minmaxOf_eq_some {l : List ℚ} {mn mx : ℚ} (h : minmaxOf l = some (mn, mx)) :
    validPixels l ≠ [] ∧ mn = listMin (validPixels l) ∧ mx = listMax (validPixels l) := by
  by_cases hv : validPixels l = []
  · rw [minmaxOf, if_pos hv] at h
    cases h
  · rw [minmaxOf, if_neg hv] at h
    have h2 := Option.some_inj.mp h
    injection h2 with h3 h4
    exact ⟨hv, h3.symm, h4.symm⟩

lemma minmaxOf_fst_pos {l : List ℚ} {mn mx : ℚ} (h : minmaxOf l = some (mn, mx)) : 0 < mn := by
  obtain ⟨hne, hmn, _⟩ := minmaxOf_eq_some h
  have hm : mn ∈ validPixels l := hmn ▸ listMin_mem _ hne
  exact (validPixels_mem.mp hm).2.1

lemma minmaxVals_filter : ∀ {ls : List (List ℚ)} {gs : List (ℚ × ℚ)},
    List.Forall₂ (fun l g => minmaxOf l = none → g.1 ≤ 0) ls gs →
    (minmaxVals ls gs).filter (fun p => decide (0 < p.1)) = ls.filterMap minmaxOf := by
  intro ls gs h
  induction h with
  | nil => rfl
  | @cons l g ls gs hlg _ ih =>
    simp only [minmaxVals, List.zipWith_cons_cons]
    cases hm : minmaxOf l with
    | some p =>
      obtain ⟨a, b⟩ := p
      have ha : 0 < a := minmaxOf_fst_pos hm
      simp only [Option.getD_some, List.filter_cons, List.filterMap_cons, hm]
      rw [if_pos (by simpa using ha)]
      rw [show (minmaxVals ls gs) = List.zipWith (fun l g => (minmaxOf l).getD g) ls gs from rfl] at ih
      rw [ih]
    | none =>
      have hg : g.1 ≤ 0 := hlg hm
      simp only [Option.getD_none, List.filter_cons, List.filterMap_cons, hm]
      rw [if_neg (by simpa using not_lt.mpr hg)]
      rw [show (minmaxVals ls gs) = List.zipWith (fun l g => (minmaxOf l).getD g) ls gs from rfl] at ih
      rw [ih]

/-! Helper lemmas about the existence filter. -/

lemma filterFiles_lengths (onDisk : String → Bool) : ∀ (ps : List (String × String)) (s : Nat),
    (filterFiles onDisk ps s).2.1.length = (filterFiles onDisk ps s).1.length ∧
    (filterFiles onDisk ps s).2.2.length = (filterFiles onDisk ps s).1.length := by
  intro ps
  induction ps with
  | nil => intro s; simp [filterFiles]
  | cons p rest ih =>
    intro s
    obtain ⟨f, d⟩ := p
    by_cases h : onDisk f <;> simp [filterFiles, h, ih (s + 1)]

lemma filterFiles_spec (onDisk : String → Bool) : ∀ (ps : List (String × String)) (s j : Nat),
    j < (filterFiles onDisk ps s).1.length →
    s ≤ (filterFiles onDisk ps s).2.2.getD j 0 ∧
    (filterFiles onDisk ps s).2.2.getD j 0 - s < ps.length ∧
    ps.getD ((filterFiles onDisk ps s).2.2.getD j 0 - s) ("", "") =
      ((filterFiles onDisk ps s).1.getD j "", (filterFiles onDisk ps s).2.1.getD j "") ∧
    onDisk ((filterFiles onDisk ps s).1.getD j "") = true := by
  intro ps
  induction ps with
  | nil => intro s j hj; simp [filterFiles] at hj
  | cons p rest ih =>
    intro s j hj
    obtain ⟨f, d⟩ := p
    by_cases h : onDisk f
    · have heq : filterFiles onDisk ((f, d) :: rest) s =
          (f :: (filterFiles onDisk rest (s + 1)).1,
           d :: (filterFiles onDisk rest (s + 1)).2.1,
           s :: (filterFiles onDisk rest (s + 1)).2.2) := by
        simp [filterFiles, h]
      rw [heq] at hj ⊢
      cases j with
      | zero =>
        refine ⟨le_refl s, ?_, ?_, ?_⟩ <;> simp [h]
      | succ j =>
        have hj' : j < (filterFiles onDisk rest (s + 1)).1.length := by simpa using hj
        obtain ⟨h1, h2, h3, h4⟩ := ih (s + 1) j hj'
        simp only [List.getD_cons_succ]
        have hsub : (filterFiles onDisk rest (s + 1)).2.2.getD j 0 - s =
            ((filterFiles onDisk rest (s + 1)).2.2.getD j 0 - (s + 1)) + 1 := by omega
        refine ⟨by omega, ?_, ?_, h4⟩
        · simp only [List.length_cons]; omega
        · rw [hsub, List.getD_cons_succ]; exact h3
    · have heq : filterFiles onDisk ((f, d) :: rest) s = filterFiles onDisk rest (s + 1) := by
        simp [filterFiles, h]
      rw [heq] at hj ⊢
      obtain ⟨h1, h2, h3, h4⟩ := ih (s + 1) j hj
      have hsub : (filterFiles onDisk rest (s + 1)).2.2.getD j 0 - s =
          ((filterFiles onDisk rest (s + 1)).2.2.getD j 0 - (s + 1)) + 1 := by omega
      refine ⟨by omega, ?_, ?_, h4⟩
      · simp only [List.length_cons]; omega
      · rw [hsub, List.getD_cons_succ]; exact h3

lemma zip_getD : ∀ (xs ys : List String) (i : Nat), i < xs.length → i < ys.length →
    (xs.zip ys).getD i ("", "") = (xs.getD i "", ys.getD i "") := by
  intro xs
  induction xs with
  | nil => intro ys i h1 h2; simp at h1
  | cons x xs ih =>
    intro ys i h1 h2
    cases ys with
    | nil => simp at h2
    | cons y ys =>
      cases i with
      | zero => simp [List.zip_cons_cons]
      | succ i =>
        simp only [List.zip_cons_cons, List.getD_cons_succ]
        exact ih ys i (by simpa using h1) (by simpa using h2)

/-! Helper lemmas about the renderer. -/

lemma plot_imagegrid_error {onDisk : String → Bool} {disk : String → Img}
    {garbage : List (ℚ × ℚ)} {modnames labels : List String} {wave tau angle : String}
    {save_eps save_png : Bool} {e : ExitInfo}
    (h : plot_imagegrid onDisk disk garbage modnames labels wave tau angle save_eps save_png =
      .error e) :
    (keptTriple onDisk modnames labels wave tau angle).1.length = 0 := by
  by_cases h0 : (keptTriple onDisk modnames labels wave tau angle).1.length = 0
  · exact h0
  · rw [plot_imagegrid, if_neg h0] at h
    cases h

/-- C1, counterexample: with the two-model set `ma`, `mb` and only `mb`'s
file on disk, the surviving model has original index 1 and its panel is
placed at grid cell (0, 1) = (1 div 3, 1 mod 3), not at (1 mod 3, 1 div 3)
= (1, 0) as the claim states. -/
theorem C1_counterexample :
    Except.map RenderResult.positions
        (plot_imagegrid mbOnDisk unitDisk [(0, 0)] ["ma", "mb"] ["A", "B"] "w" "t" "a"
          false false) = .ok [(0, 1)] ∧
    ((0, 1) : Nat × Nat) ≠ (1 % 3, 1 / 3) :=
  ⟨by decide, by decide⟩

/-- C1 (amended): whenever at least one model file exists, the renderer
raises no error and places the panel of the model whose original
(pre-filtering) index is `n` at grid row `n div 3` and grid column
`n mod 3`; since the cell is a function of the original index alone,
models whose files are missing leave their cells empty rather than the
panels being compacted. -/
theorem C1_gridPositions : ∀ (onDisk : String → Bool) (disk : String → Img)
    (garbage : List (ℚ × ℚ)) (modnames labels : List String) (wave tau angle : String)
    (save_eps save_png : Bool),
    (keptTriple onDisk modnames labels wave tau angle).1.length ≠ 0 →
    Except.map RenderResult.positions
        (plot_imagegrid onDisk disk garbage modnames labels wave tau angle save_eps save_png) =
      .ok ((keptTriple onDisk modnames labels wave tau angle).2.2.map fun n => (n / 3, n % 3)) := by
  intro onDisk disk garbage modnames labels wave tau angle save_eps save_png h
  rw [plot_imagegrid, if_neg h]
  rfl

/-- C1 witness: the spec's 3-of-7 scenario — of the default seven-model
set only the files of original indices 0, 4 and 6 exist, and the three
panels sit at the original cells (0,0), (1,1) and (2,0). -/
theorem C1_witness :
    Except.map RenderResult.positions
        (plot_imagegrid threeOfSevenOnDisk unitDisk [] defaultConfig.imodnames
          defaultConfig.displaynames "000.53" "1e0" "090" false false) =
      .ok ((keptTriple threeOfSevenOnDisk defaultConfig.imodnames defaultConfig.displaynames
          "000.53" "1e0" "090").2.2.map fun n => (n / 3, n % 3)) :=
  C1_gridPositions threeOfSevenOnDisk unitDisk [] defaultConfig.imodnames
    defaultConfig.displaynames "000.53" "1e0" "090" false false (by decide)

/-- C2, counterexample: three equal-shaped 2×3 images, so the cube
assembly of lines 74-78 succeeds and the script reaches the aggregation at
line 90.  The second and third images have no pixel strictly between zero
and their own maximum, so their `minmax_vals` rows keep the uninitialized
`np.empty` contents (here (7, 9) and (8, 10)); since those pass the
`minmax_vals[:,0] > 0` test they do contribute to the medians, and the
shared range (7, 9) differs from the claimed medians of the valid entries
alone, (1, 2). -/
theorem C2_counterexample :
    Except.map (fun r => r.plotRange)
        (plot_imagegrid allOnDisk rampFlatDisk3 [(0, 0), (7, 9), (8, 10)] ["ma", "mb", "mc"]
          ["A", "B", "C"] "w" "t" "a" false false) = .ok (some (7, 9)) ∧
    cubeOk (loadedImages allOnDisk rampFlatDisk3 ["ma", "mb", "mc"] ["A", "B", "C"]
        "w" "t" "a") = true ∧
    (loadedImages allOnDisk rampFlatDisk3 ["ma", "mb", "mc"] ["A", "B", "C"] "w" "t" "a").map
        pixList = [[1, 2, 3, 1, 2, 3], [5, 5, 5, 5, 5, 5], [6, 6, 6, 6, 6, 6]] ∧
    specSharedRange [[1, 2, 3, 1, 2, 3], [5, 5, 5, 5, 5, 5], [6, 6, 6, 6, 6, 6]] = (1, 2) ∧
    ((7 : ℚ), (9 : ℚ)) ≠ ((1 : ℚ), (2 : ℚ)) :=
  ⟨by decide, by decide, by decide, by decide, by decide⟩

/-- C2 (amended): whenever at least one file exists, the loaded images
assemble into the display cube (every image's shape broadcasts into the
first one's, so the script survives line 78 and reaches line 90), and every
image with no qualifying pixel has a nonpositive first component in its
uninitialized `minmax_vals` row, the shared plotting range equals the pair
(median of the valid per-image minimums, median of the valid per-image
maximums), invalid images contributing no entry. -/
theorem C2_sharedRange : ∀ (onDisk : String → Bool) (disk : String → Img)
    (garbage : List (ℚ × ℚ)) (modnames labels : List String) (wave tau angle : String)
    (save_eps save_png : Bool),
    (keptTriple onDisk modnames labels wave tau angle).1.length ≠ 0 →
    cubeOk (loadedImages onDisk disk modnames labels wave tau angle) = true →
    List.Forall₂ (fun (l : List ℚ) (g : ℚ × ℚ) => minmaxOf l = none → g.1 ≤ 0)
      ((loadedImages onDisk disk modnames labels wave tau angle).map pixList) garbage →
    Except.map (fun r => r.plotRange)
        (plot_imagegrid onDisk disk garbage modnames labels wave tau angle save_eps save_png) =
      .ok (some (specSharedRange
        ((loadedImages onDisk disk modnames labels wave tau angle).map pixList))) := by
  intro onDisk disk garbage modnames labels wave tau angle save_eps save_png h hcube hf
  rw [plot_imagegrid, if_neg h]
  show Except.ok (if cubeOk _ then some (plot_minmax _ garbage) else none) = _
  rw [if_pos hcube, plot_minmax, minmaxVals_filter hf]
  rfl

/-- C2 witness: one valid and one invalid 2×3 image (equal shapes, cube
assembly succeeds), the invalid one with nonpositive placeholder contents;
the shared range is the medians of the valid entries alone. -/
theorem C2_witness :
    Except.map (fun r => r.plotRange)
        (plot_imagegrid allOnDisk rampFlatDisk [(0, 0), (0, 0)] ["ma", "mb"] ["A", "B"]
          "w" "t" "a" false false) =
      .ok (some (specSharedRange
        ((loadedImages allOnDisk rampFlatDisk ["ma", "mb"] ["A", "B"] "w" "t" "a").map
          pixList))) := by
  refine C2_sharedRange allOnDisk rampFlatDisk [(0, 0), (0, 0)] ["ma", "mb"] ["A", "B"]
    "w" "t" "a" false false (by decide) (by decide) ?_
  have h : (loadedImages allOnDisk rampFlatDisk ["ma", "mb"] ["A", "B"] "w" "t" "a").map pixList
      = [[1, 2, 3, 1, 2, 3], [5, 5, 5, 5, 5, 5]] := by decide
  rw [h]
  exact .cons (by decide) (.cons (by decide) .nil)

/-- C3, counterexample: a 200×300 image for the rotated model `CRT`.  The
pre-rotation leading dimension is 200, so the claim says no crop window
applies and the result keeps the rotated shape with 300 rows; the code
tests the shape *after* the rotation, sees 300, and crops to 251 rows. -/
theorem C3_counterexample :
    (preprocess "CRT" wideImg).rows = 251 ∧ (specPreprocess "CRT" wideImg).rows = 300 ∧
    (251 : Nat) ≠ 300 :=
  ⟨by decide, by decide, by decide⟩

/-- C3 (amended): the fixed crop window ([9:260]×[45:255] for size 300,
[19:520]×[90:510] for size 600) is selected by the leading dimension size
of the array as it is *after* the conditional three-quarter-turn rotation
and before cropping. -/
theorem C3_cropSelection : ∀ (name : String) (img : Img),
    ((rotateIf name img).rows = 300 →
      preprocess name img = crop 9 260 45 255 (rotateIf name img)) ∧
    ((rotateIf name img).rows ≠ 300 → (rotateIf name img).rows = 600 →
      preprocess name img = crop 19 520 90 510 (rotateIf name img)) ∧
    ((rotateIf name img).rows ≠ 300 → (rotateIf name img).rows ≠ 600 →
      preprocess name img = rotateIf name img) := by
  intro name img
  refine ⟨?_, ?_, ?_⟩ <;> intros <;> simp_all [preprocess, cropWindow]

/-- C3 witness: a square 300×300 image of the rotated model `SOC` gets the
300-window, and a 10×20 image of an unrotated model passes through. -/
theorem C3_witness :
    preprocess "SOC" sqImg = crop 9 260 45 255 (rotateIf "SOC" sqImg) ∧
    preprocess "A" smallImg = rotateIf "A" smallImg :=
  ⟨(C3_cropSelection "SOC" sqImg).1 (by decide),
   (C3_cropSelection "A" smallImg).2.2 (by decide) (by decide)⟩

/-- C4: if zero of the constructed filenames exist for a combination, the
sweep stops right there: the combination's `plot_imagegrid` hits the
`exit(0)` branch, the program ends with exit code 0 after printing the
`no files present` diagnostic together with the expected filenames, only
the figures of earlier combinations were produced, and the combinations
after it are never attempted. -/
theorem C4_zeroFilesExit : ∀ (onDisk : String → Bool) (disk : String → Img)
    (garbage : List (ℚ × ℚ)) (modnames labels : List String) (save_eps save_png : Bool)
    (pre : List (String × String × String)) (wave tau angle : String)
    (post : List (String × String × String)),
    (∀ c ∈ pre, (keptTriple onDisk modnames labels c.1 c.2.1 c.2.2).1.length ≠ 0) →
    (keptTriple onDisk modnames labels wave tau angle).1.length = 0 →
    sweepCombos onDisk disk garbage modnames labels save_eps save_png
        (pre ++ (wave, tau, angle) :: post) =
      ((sweepCombos onDisk disk garbage modnames labels save_eps save_png pre).1,
        some ⟨"no files present", ifilenames modnames wave tau angle, 0⟩) := by
  intro onDisk disk garbage modnames labels save_eps save_png pre
  induction pre with
  | nil =>
    intro wave tau angle post _ h0
    have he : plot_imagegrid onDisk disk garbage modnames labels wave tau angle
        save_eps save_png =
        .error ⟨"no files present", ifilenames modnames wave tau angle, 0⟩ := by
      rw [plot_imagegrid, if_pos h0]
    simp [sweepCombos, he]
  | cons c pre ih =>
    intro wave tau angle post hpre h0
    obtain ⟨w1, t1, a1⟩ := c
    have hk : (keptTriple onDisk modnames labels w1 t1 a1).1.length ≠ 0 :=
      hpre (w1, t1, a1) (List.mem_cons_self _ _)
    cases hres : plot_imagegrid onDisk disk garbage modnames labels w1 t1 a1
        save_eps save_png with
    | error e => exact absurd (plot_imagegrid_error hres) hk
    | ok r =>
      have hrec := ih wave tau angle post (fun c hc => hpre c (List.mem_cons_of_mem _ hc)) h0
      simp only [List.cons_append, sweepCombos, hres]
      rw [show pre.append ((wave, tau, angle) :: post) = pre ++ (wave, tau, angle) :: post
        from rfl, hrec]

/-- C4 witness: with no file on disk the very first combination exits the
program with code 0; nothing is rendered and the second combination is
never attempted. -/
theorem C4_witness :
    sweepCombos noneOnDisk unitDisk [] ["ma"] ["A"] false false
        [("w", "t", "a"), ("w2", "t2", "a2")] =
      ([], some ⟨"no files present", ["ma_tt_iaa000_ww.fits"], 0⟩) := by
  have h := C4_zeroFilesExit noneOnDisk unitDisk [] ["ma"] ["A"] false false []
    "w" "t" "a" [("w2", "t2", "a2")]
    (fun c hc => absurd hc (List.not_mem_nil c)) (by decide)
  rw [show ifilenames ["ma"] "w" "t" "a" = ["ma_tt_iaa000_ww.fits"] from by decide] at h
  simpa [sweepCombos] using h

/-- C5: the per-image (min, max) statistics are taken over exactly the
pixels strictly greater than zero and strictly below the image's own
maximum: when the statistics exist they are attained by such pixels and
bound every such pixel, and when they do not exist no pixel qualifies. -/
theorem C5_intensityStats : ∀ (l : List ℚ) (mn mx : ℚ),
    (minmaxOf l = some (mn, mx) →
      mn ∈ l ∧ mx ∈ l ∧ 0 < mn ∧ mn < listMax l ∧ 0 < mx ∧ mx < listMax l ∧
      ∀ p ∈ l, 0 < p → p < listMax l → mn ≤ p ∧ p ≤ mx) ∧
    (minmaxOf l = none → ∀ p ∈ l, 0 < p → ¬p < listMax l) := by
  intro l mn mx
  constructor
  · intro h
    obtain ⟨hne, hmn, hmx⟩ := minmaxOf_eq_some h
    have hmnm : mn ∈ validPixels l := hmn ▸ listMin_mem _ hne
    have hmxm : mx ∈ validPixels l := hmx ▸ listMax_mem _ hne
    obtain ⟨hmnl, hmn0, hmnlt⟩ := validPixels_mem.mp hmnm
    obtain ⟨hmxl, hmx0, hmxlt⟩ := validPixels_mem.mp hmxm
    refine ⟨hmnl, hmxl, hmn0, hmnlt, hmx0, hmxlt, ?_⟩
    intro p hp h0 hlt
    have hpm : p ∈ validPixels l := validPixels_mem.mpr ⟨hp, h0, hlt⟩
    exact ⟨hmn ▸ listMin_le _ p hpm, hmx ▸ le_listMax _ p hpm⟩
  · intro h p hp h0 hlt
    have hpm : p ∈ validPixels l := validPixels_mem.mpr ⟨hp, h0, hlt⟩
    by_cases hv : validPixels l = []
    · rw [hv] at hpm
      cases hpm
    · rw [minmaxOf, if_neg hv] at h
      cases h

/-- C5 witness: on the pixel list [0, -1, 3, 4, 5] (zero, negative,
interior and maximum-valued pixels) the statistics are (3, 4): zero, the
negative pixel and the maximum 5 are excluded, and every qualifying pixel
lies between 3 and 4. -/
theorem C5_witness :
    (3 : ℚ) ∈ [(0 : ℚ), -1, 3, 4, 5] ∧ (4 : ℚ) ∈ [(0 : ℚ), -1, 3, 4, 5] ∧
    (0 : ℚ) < 3 ∧ (3 : ℚ) < listMax [(0 : ℚ), -1, 3, 4, 5] ∧
    (0 : ℚ) < 4 ∧ (4 : ℚ) < listMax [(0 : ℚ), -1, 3, 4, 5] ∧
    ∀ p ∈ [(0 : ℚ), -1, 3, 4, 5], 0 < p → p < listMax [(0 : ℚ), -1, 3, 4, 5] →
      3 ≤ p ∧ p ≤ 4 :=
  (C5_intensityStats [(0 : ℚ), -1, 3, 4, 5] 3 4).1 (by decide)

/-- C6: the existence filter is total (nonexistent files are dropped, not
errors), drops display labels in lockstep, and for every index `j` of the
filtered lists the j-th surviving filename, the j-th surviving display
label and the j-th retained original index all refer to the same model:
the filename and label are exactly the entries of the original lists at
the retained original index, and the surviving file exists. -/
theorem C6_lockstep : ∀ (onDisk : String → Bool) (modnames labels : List String)
    (wave tau angle : String),
    labels.length = modnames.length →
    (keptTriple onDisk modnames labels wave tau angle).2.1.length =
        (keptTriple onDisk modnames labels wave tau angle).1.length ∧
    (keptTriple onDisk modnames labels wave tau angle).2.2.length =
        (keptTriple onDisk modnames labels wave tau angle).1.length ∧
    ∀ j, j < (keptTriple onDisk modnames labels wave tau angle).1.length →
      (keptTriple onDisk modnames labels wave tau angle).2.2.getD j 0 < modnames.length ∧
      (keptTriple onDisk modnames labels wave tau angle).1.getD j "" =
        (ifilenames modnames wave tau angle).getD
          ((keptTriple onDisk modnames labels wave tau angle).2.2.getD j 0) "" ∧
      (keptTriple onDisk modnames labels wave tau angle).2.1.getD j "" =
        labels.getD ((keptTriple onDisk modnames labels wave tau angle).2.2.getD j 0) "" ∧
      onDisk ((keptTriple onDisk modnames labels wave tau angle).1.getD j "") = true := by
  intro onDisk modnames labels wave tau angle hlen
  simp only [keptTriple]
  have hl := filterFiles_lengths onDisk ((ifilenames modnames wave tau angle).zip labels) 0
  refine ⟨hl.1, hl.2, ?_⟩
  intro j hj
  obtain ⟨_, h2, h3, h4⟩ :=
    filterFiles_spec onDisk ((ifilenames modnames wave tau angle).zip labels) 0 j hj
  rw [Nat.sub_zero] at h2 h3
  have hzl : ((ifilenames modnames wave tau angle).zip labels).length = modnames.length := by
    simp [List.length_zip, ifilenames, hlen]
  rw [hzl] at h2
  have hidx2 : (filterFiles onDisk ((ifilenames modnames wave tau angle).zip labels) 0).2.2.getD
      j 0 < (ifilenames modnames wave tau angle).length := by
    simpa [ifilenames] using h2
  have hidx3 : (filterFiles onDisk ((ifilenames modnames wave tau angle).zip labels) 0).2.2.getD
      j 0 < labels.length := by
    rw [hlen]
    exact h2
  rw [zip_getD (ifilenames modnames wave tau angle) labels _ hidx2 hidx3] at h3
  exact ⟨h2, (congrArg Prod.fst h3).symm, (congrArg Prod.snd h3).symm, h4⟩

/-- C6 witness: with models `ma`, `mb` and only `mb`'s file on disk, the
single surviving entry carries original index 1, `mb`'s filename, `mb`'s
label `B`, and its file exists. -/
theorem C6_witness :
    (keptTriple mbOnDisk ["ma", "mb"] ["A", "B"] "w" "t" "a").2.2.getD 0 0 <
        (["ma", "mb"] : List String).length ∧
    (keptTriple mbOnDisk ["ma", "mb"] ["A", "B"] "w" "t" "a").1.getD 0 "" =
      (ifilenames ["ma", "mb"] "w" "t" "a").getD
        ((keptTriple mbOnDisk ["ma", "mb"] ["A", "B"] "w" "t" "a").2.2.getD 0 0) "" ∧
    (keptTriple mbOnDisk ["ma", "mb"] ["A", "B"] "w" "t" "a").2.1.getD 0 "" =
      (["A", "B"] : List String).getD
        ((keptTriple mbOnDisk ["ma", "mb"] ["A", "B"] "w" "t" "a").2.2.getD 0 0) "" ∧
    mbOnDisk ((keptTriple mbOnDisk ["ma", "mb"] ["A", "B"] "w" "t" "a").1.getD 0 "") = true :=
  (C6_lockstep mbOnDisk ["ma", "mb"] ["A", "B"] "w" "t" "a" rfl).2.2 0 (by decide)

/-- C7: for each of the three axes, the CLI value `all` expands to exactly
the declared value list with the `all` sentinel removed, in declared
order, and any other single value stays a singleton list. -/
theorem C7_expandAll :
    (expandAxis good_angles "all" = good_angles.filter (fun s => !(s == "all")) ∧
     expandAxis good_taus "all" = good_taus.filter (fun s => !(s == "all")) ∧
     expandAxis good_waves "all" = good_waves.filter (fun s => !(s == "all"))) ∧
    ∀ v : String, v ≠ "all" →
      expandAxis good_angles v = [v] ∧ expandAxis good_taus v = [v] ∧
      expandAxis good_waves v = [v] := by
  constructor
  · exact ⟨by decide, by decide, by decide⟩
  · intro v hv
    have h : ¬("all" ∈ [v]) := by
      simp only [List.mem_singleton]
      exact fun h => hv h.symm
    refine ⟨?_, ?_, ?_⟩ <;> rw [expandAxis, if_neg h]

/-- C7 witness: the concrete value `090` stays a singleton on every axis. -/
theorem C7_witness :
    expandAxis good_angles "090" = ["090"] ∧ expandAxis good_taus "090" = ["090"] ∧
    expandAxis good_waves "090" = ["090"] :=
  C7_expandAll.2 "090" (by decide)

/-- C8: for a completed render, the raster flag yields exactly the two
files `slab_t<tau>_i<angle>_w<wave>_image_comp.png` and
`..._image_comp_small.png` (raster wins even when the vector flag is also
set), the vector flag alone yields exactly `..._image_comp.eps`, and with
neither flag the figure is shown interactively. -/
theorem C8_outputFiles : ∀ (onDisk : String → Bool) (disk : String → Img)
    (garbage : List (ℚ × ℚ)) (modnames labels : List String) (wave tau angle : String)
    (save_eps save_png : Bool),
    (keptTriple onDisk modnames labels wave tau angle).1.length ≠ 0 →
    Except.map RenderResult.outputs
        (plot_imagegrid onDisk disk garbage modnames labels wave tau angle save_eps save_png) =
      .ok (if save_png then
            .writes ["slab_t" ++ tau ++ "_i" ++ angle ++ "_w" ++ wave ++ "_image_comp" ++ ".png",
              "slab_t" ++ tau ++ "_i" ++ angle ++ "_w" ++ wave ++ "_image_comp" ++ "_small.png"]
          else if save_eps then
            .writes ["slab_t" ++ tau ++ "_i" ++ angle ++ "_w" ++ wave ++ "_image_comp" ++ ".eps"]
          else .interactive) := by
  intro onDisk disk garbage modnames labels wave tau angle save_eps save_png h
  rw [plot_imagegrid, if_neg h]
  rfl

/-- C8 witness: with both flags the two raster files win, with the vector
flag alone the single vector file is written, with neither the figure is
shown. -/
theorem C8_witness :
    Except.map RenderResult.outputs
        (plot_imagegrid allOnDisk unitDisk [] ["ma"] ["A"] "w" "t" "a" true true) =
      .ok (.writes ["slab_tt_ia_ww_image_comp.png", "slab_tt_ia_ww_image_comp_small.png"]) ∧
    Except.map RenderResult.outputs
        (plot_imagegrid allOnDisk unitDisk [] ["ma"] ["A"] "w" "t" "a" true false) =
      .ok (.writes ["slab_tt_ia_ww_image_comp.eps"]) ∧
    Except.map RenderResult.outputs
        (plot_imagegrid allOnDisk unitDisk [] ["ma"] ["A"] "w" "t" "a" false false) =
      .ok .interactive := by
  refine ⟨?_, ?_, ?_⟩
  · rw [C8_outputFiles allOnDisk unitDisk [] ["ma"] ["A"] "w" "t" "a" true true (by decide)]
    decide
  · rw [C8_outputFiles allOnDisk unitDisk [] ["ma"] ["A"] "w" "t" "a" true false (by decide)]
    decide
  · rw [C8_outputFiles allOnDisk unitDisk [] ["ma"] ["A"] "w" "t" "a" false false (by decide)]
    decide

/-- C9: the if/elif chain raises no error when several mode flags are set
together and silently selects exactly one configuration in the fixed
priority order stau, nphot, mscat, econs, nz, wr, minfs, default. -/
theorem C9_flagPriority : ∀ f : Flags,
    (f.stau = true → selectConfig f = stauConfig) ∧
    (f.stau = false → f.nphot = true → selectConfig f = nphotConfig) ∧
    (f.stau = false → f.nphot = false → f.mscat = true → selectConfig f = mscatConfig) ∧
    (f.stau = false → f.nphot = false → f.mscat = false → f.econs = true →
      selectConfig f = econsConfig) ∧
    (f.stau = false → f.nphot = false → f.mscat = false → f.econs = false → f.nz = true →
      selectConfig f = nzConfig) ∧
    (f.stau = false → f.nphot = false → f.mscat = false → f.econs = false → f.nz = false →
      f.wr = true → selectConfig f = wrConfig) ∧
    (f.stau = false → f.nphot = false → f.mscat = false → f.econs = false → f.nz = false →
      f.wr = false → f.minfs = true → selectConfig f = minfsConfig) ∧
    (f.stau = false → f.nphot = false → f.mscat = false → f.econs = false → f.nz = false →
      f.wr = false → f.minfs = false → selectConfig f = defaultConfig) := by
  intro f
  refine ⟨?_, ?_, ?_, ?_, ?_, ?_, ?_, ?_⟩ <;> intros <;> simp_all [selectConfig]

/-- C9 witness: with every flag set the stau configuration wins; peeling
the leading flags one at a time walks the whole priority order down to the
default seven-code set. -/
theorem C9_witness :
    selectConfig ⟨true, true, true, true, true, true, true⟩ = stauConfig ∧
    selectConfig ⟨false, true, true, true, true, true, true⟩ = nphotConfig ∧
    selectConfig ⟨false, false, true, true, true, true, true⟩ = mscatConfig ∧
    selectConfig ⟨false, false, false, true, true, true, true⟩ = econsConfig ∧
    selectConfig ⟨false, false, false, false, true, true, true⟩ = nzConfig ∧
    selectConfig ⟨false, false, false, false, false, true, true⟩ = wrConfig ∧
    selectConfig ⟨false, false, false, false, false, false, true⟩ = minfsConfig ∧
    selectConfig ⟨false, false, false, false, false, false, false⟩ = defaultConfig :=
  ⟨(C9_flagPriority _).1 rfl,
   (C9_flagPriority _).2.1 rfl rfl,
   (C9_flagPriority _).2.2.1 rfl rfl rfl,
   (C9_flagPriority _).2.2.2.1 rfl rfl rfl rfl,
   (C9_flagPriority _).2.2.2.2.1 rfl rfl rfl rfl rfl,
   (C9_flagPriority _).2.2.2.2.2.1 rfl rfl rfl rfl rfl rfl,
   (C9_flagPriority _).2.2.2.2.2.2.1 rfl rfl rfl rfl rfl rfl rfl,
   (C9_flagPriority _).2.2.2.2.2.2.2 rfl rfl rfl rfl rfl rfl rfl⟩

/-- C10: an image whose leading dimension (after the conditional rotation)
is neither 300 nor 600 falls through both crop branches unchanged — it is
neither cropped nor rejected, and no exception is possible since the step
is a total function. -/
theorem C10_cropFallthrough : ∀ img : Img,
    img.rows ≠ 300 → img.rows ≠ 600 → cropWindow img = img := by
  intro img h3 h6
  rw [cropWindow, if_neg h3, if_neg h6]

/-- C10 witness: a 10×20 image passes through the crop step unchanged. -/
theorem C10_witness : cropWindow smallImg = smallImg :=
  C10_cropFallthrough smallImg (by decide) (by decide)

end TrustSlab
